import Mathlib

/-!
Verification of the magda-auth-okta authentication plugin.

This file gives a shallow embedding, in Lean 4, of the core logic of the
`magda-auth-okta` repository (`createAuthPluginRouter.ts`): URL resolution,
the OpenId client construction, the passport verify callback, and the four
HTTP endpoint handlers (`GET /`, `GET /return`, `GET /logout`,
`GET /logout/return`).  Strings model JavaScript strings; optional values
model absent (`undefined`) values; external collaborators from
`@magda/authentication-plugin-sdk` (`getAbsoluteUrl`, `redirectOnSuccess`,
`redirectOnError`, `destroyMagdaSession`) and from `openid-client`
(authorization / end-session redirect construction, session establishment
performed by passport on a successful `done`) are modelled explicitly,
following the behaviour documented in the source's own doc comments and in
the design specification.  URL percent-encoding is modelled as the identity
on the characters considered.
-/

/-! Constants from the source. -/

def OKTA_DEFAULT_TIMEOUT : Nat := 10000

def OKTA_DEFAULT_MAX_CLOCK_SKEW : Nat := 120

def STRATEGY_NAME : String := "okta-oidc"

def DEFAULT_SCOPE : String := "openid profile email"

/-! String and URL primitives. -/

/-- JavaScript test `s.substr(s.length - 1) === "/"`: the last character of
the string is a slash. -/
def lastIsSlash (s : String) : Bool := s.data.getLast? = some '/'

/-- Drop a single trailing slash when present. -/
def stripTrailingSlash (s : String) : String :=
  if lastIsSlash s then ⟨s.data.dropLast⟩ else s

/-- A URL counts as already absolute when it starts with `http`
(this is how the SDK's `getAbsoluteUrl` detects absolute URLs). -/
def isAbsoluteUrl (url : String) : Bool := url.data.take 4 = "http".data

/-- Whether the string starts with a `/`. -/
def startsWithSlash (s : String) : Bool := s.data.head? = some '/'

/-- Join a base URL and a path with exactly one slash between them. -/
def joinUrl (base url : String) : String :=
  stripTrailingSlash base ++ (if startsWithSlash url then url else "/" ++ url)

/-- Render a query list as `k1=v1&k2=v2...` (percent-encoding modelled as
the identity). -/
def queryString (qs : List (String × String)) : String :=
  String.intercalate "&" (qs.map fun p => p.1 ++ "=" ++ p.2)

/-- Append optional query parameters to a URL. -/
def appendQueries (url : String) (qs : List (String × String)) : String :=
  if qs.isEmpty then url else url ++ "?" ++ queryString qs

/-- Modelled from the spec: the SDK collaborator
`getAbsoluteUrl(url, baseUrl?, optionalQueries?)` of
`@magda/authentication-plugin-sdk` (the function itself is not part of this
repository).  Per the repository's own doc comment on `determineRedirectUrl`:
if a base URL is provided the url is converted into an absolute url
(an already absolute url is returned unchanged), otherwise the url is left
as it is.  Optional queries are appended as query parameters. -/
def getAbsoluteUrl (url : String) (baseUrl : Option String)
    (queries : List (String × String)) : String :=
  match baseUrl with
  | none => url
  | some b =>
      appendQueries (if isAbsoluteUrl url then url else joinUrl b url) queries

/-! Configuration: `AuthPluginRouterOptions` plus `authPluginConfig`. -/

/-- The configuration consumed by `createAuthPluginRouter`.  `pluginKey` and
`explicitLogout` come from `options.authPluginConfig`; optional numeric
values are `none` when absent (`undefined`). -/
structure AuthPluginRouterOptions where
  issuer : String
  clientId : String
  clientSecret : String
  externalUrl : String
  authPluginRedirectUrl : String
  pluginKey : String
  explicitLogout : Bool
  timeout : Option Nat
  maxClockSkew : Option Nat
  scope : Option String
deriving DecidableEq

/-- JavaScript `v || d` on an optional number: absent, or falsy `0`,
falls back to the default. -/
def jsNumOrDefault (v : Option Nat) (d : Nat) : Nat :=
  match v with
  | none => d
  | some t => if t = 0 then d else t

/-- Source line `opts.timeout = options?.timeout || OKTA_DEFAULT_TIMEOUT`
applied to the `Issuer` http options. -/
def issuerHttpTimeout (timeout : Option Nat) : Nat :=
  jsNumOrDefault timeout OKTA_DEFAULT_TIMEOUT

/-- Source line `typeof options?.maxClockSkew === "undefined" ?
OKTA_DEFAULT_MAX_CLOCK_SKEW : options.maxClockSkew`. -/
def clientClockTolerance (maxClockSkew : Option Nat) : Nat :=
  match maxClockSkew with
  | none => OKTA_DEFAULT_MAX_CLOCK_SKEW
  | some v => v

/-- Source line `const scope = options.scope ? options.scope : DEFAULT_SCOPE`
(a falsy empty string also falls back). -/
def resolvedScope (scope : Option String) : String :=
  match scope with
  | none => DEFAULT_SCOPE
  | some s => if s = "" then DEFAULT_SCOPE else s

/-! OpenId client construction: `createOpenIdClient`. -/

/-- Source line `const loginBaseUrl = getAbsoluteUrl("/auth/login/plugin", externalUrl)`. -/
def loginBaseUrl (externalUrl : String) : String :=
  getAbsoluteUrl "/auth/login/plugin" (some externalUrl) []

/-- Source line `redirect_uris: [getAbsoluteUrl("/okta/return", loginBaseUrl)]`. -/
def clientRedirectUris (externalUrl : String) : List String :=
  [getAbsoluteUrl "/okta/return" (some (loginBaseUrl externalUrl)) []]

/-- The discovery URL handed to `Issuer.discover`:
`options.issuer + (options.issuer.substr(options.issuer.length - 1) === "/"
? "" : "/") + ".well-known/openid-configuration"`. -/
def discoveryUrl (issuer : String) : String :=
  issuer ++ (if lastIsSlash issuer then "" else "/")
    ++ ".well-known/openid-configuration"

/-- The client object built once by `createOpenIdClient`. -/
structure OpenIdClientModel where
  client_id : String
  client_secret : String
  redirect_uris : List String
  clock_tolerance : Nat
deriving DecidableEq

/-- The pure content of `createOpenIdClient`: the discovery URL fetched and
the client constructed once from the options (network effects omitted). -/
def createOpenIdClient (options : AuthPluginRouterOptions) : OpenIdClientModel :=
  { client_id := options.clientId
    client_secret := options.clientSecret
    redirect_uris := clientRedirectUris options.externalUrl
    clock_tolerance := clientClockTolerance options.maxClockSkew }

/-! Requests, sessions and responses. -/

/-- The token set returned by the provider (opaque; we track only the
identity of the bundle). -/
structure TokenSet where
  idToken : String
deriving DecidableEq

/-- The `authPlugin` data attached to an established session user record. -/
structure AuthPluginData where
  key : String
  tokenSet : Option TokenSet
  logoutUrl : Option String
deriving DecidableEq

/-- The user token minted by the authorization API collaborator
(`createOrGetUserToken`), opaque here. -/
structure UserToken where
  id : String
deriving DecidableEq

/-- A session user record (`req.user`).  Optional-chaining in the source
(`(req?.user as any)?.authPlugin?.tokenSet`) is modelled with options. -/
structure SessionUser where
  userToken : Option UserToken
  authPlugin : Option AuthPluginData
deriving DecidableEq

/-- The parts of an express request the handlers read: the `redirect` and
`state` query parameters and the session user. -/
structure Request where
  redirect : Option String
  state : Option String
  user : Option SessionUser
deriving DecidableEq

/-- The response issued by a handler.  Redirects whose URL is built by the
`openid-client` library are kept structured, recording exactly the arguments
the code passes to the library. -/
inductive Response where
  | redirect (url : String)
  | providerAuthRedirect (scope state : String)
  | providerLogoutRedirect (idTokenHint : TokenSet) (postLogoutRedirectUri : String)
deriving DecidableEq

/-- Source expression `(req?.user as any)?.authPlugin?.tokenSet`. -/
def sessionTokenSet (user : Option SessionUser) : Option TokenSet :=
  (user.bind SessionUser.authPlugin).bind AuthPluginData.tokenSet

/-! The function `determineRedirectUrl`. -/

/-- Function `determineRedirectUrl(req, authPluginRedirectUrl, externalUrl?)`:
a present, non-empty string `redirect` query parameter wins (resolved via
`getAbsoluteUrl` against `externalUrl` when that is given), otherwise the
configured `authPluginRedirectUrl` is used (likewise resolved). -/
def determineRedirectUrl (redirectQuery : Option String)
    (authPluginRedirectUrl : String) (externalUrl : Option String) : String :=
  let resultRedirectionUrl := getAbsoluteUrl authPluginRedirectUrl externalUrl []
  match redirectQuery with
  | some r => if r = "" then resultRedirectionUrl else getAbsoluteUrl r externalUrl []
  | none => resultRedirectionUrl

/-! The verify callback of the `okta-oidc` strategy. -/

/-- The id-token claims / user profile handed to the verify callback. -/
structure Profile where
  sub : Option String
  email : Option String
  displayName : Option String
  familyName : Option String
  givenName : Option String
deriving DecidableEq

/-- JavaScript falsiness of `profile?.email`: absent or the empty string. -/
def isFalsyEmail (email : Option String) : Bool :=
  match email with
  | none => true
  | some v => v = ""

/-- Outcome passed to `done`: an error, or a user record. -/
inductive VerifyResult where
  | failure (message : String)
  | success (user : SessionUser)
deriving DecidableEq

/-- The verify outcome together with whether `createOrGetUserToken`
(the user/token resolver collaborator) was invoked. -/
structure VerifyTrace where
  result : VerifyResult
  resolverInvoked : Bool
deriving DecidableEq

/-- The verify callback of the `okta-oidc` strategy.  The external resolver
`createOrGetUserToken` is a parameter; it may fail.  Missing/empty email is
rejected before the resolver runs; on success the user record carries the
`authPlugin` marker, whose `logoutUrl` is set exactly when
`explicitLogout` is configured. -/
def verifyCallback (options : AuthPluginRouterOptions)
    (resolver : Profile → Except String UserToken)
    (tokenSet : TokenSet) (profile : Profile) : VerifyTrace :=
  if isFalsyEmail profile.email then
    { result := .failure "Cannot locate email address from the user profile."
      resolverInvoked := false }
  else
    match resolver profile with
    | .ok userToken =>
        { result := .success
            { userToken := some userToken
              authPlugin := some
                { key := options.pluginKey
                  tokenSet := some tokenSet
                  logoutUrl :=
                    if options.explicitLogout then
                      some ("/auth/plugin/" ++ options.pluginKey ++ "/logout")
                    else none } }
          resolverInvoked := true }
    | .error e => { result := .failure e, resolverInvoked := true }

/-! Endpoint handlers. -/

/-- Endpoint `GET /` (Initiate): `passport.authenticate` redirects the browser to the
provider's authorization endpoint carrying the configured scope and, as
`state`, the destination computed by `determineRedirectUrl` with the
external base URL. -/
def initiateHandler (options : AuthPluginRouterOptions) (req : Request) : Response :=
  .providerAuthRedirect (resolvedScope options.scope)
    (determineRedirectUrl req.redirect options.authPluginRedirectUrl
      (some options.externalUrl))

/-- The state embedded by Initiate. -/
def initiateState (options : AuthPluginRouterOptions) (req : Request) : String :=
  determineRedirectUrl req.redirect options.authPluginRedirectUrl
    (some options.externalUrl)

/-- Modelled from the spec: the SDK collaborator `redirectOnSuccess`
redirects the browser to the destination URL carried in the echoed state. -/
def redirectOnSuccessModel (state : String) : Response := .redirect state

/-- Modelled from the spec: the SDK collaborator `redirectOnError` redirects
to an error destination derived from the echoed state, carrying the error
description as query parameters. -/
def redirectOnErrorModel (errorMessage state : String) : Response :=
  .redirect (appendQueries state [("result", "failure"), ("errorMessage", errorMessage)])

/-- Outcome of the `GET /return` chain: the session established by passport
(only on a successful `done(null, user)`) and the response sent. -/
structure CompleteOutcome where
  establishedSession : Option SessionUser
  response : Response
deriving DecidableEq

/-- Endpoint `GET /return` (Complete): `passport.authenticate` performs the code
exchange (a parameter here: either an error or token set + claims), runs the
verify callback, establishes the session exactly on success, and the route's
success / error handlers redirect using `req.query.state`. -/
def completeHandler (options : AuthPluginRouterOptions)
    (resolver : Profile → Except String UserToken)
    (exchange : Except String (TokenSet × Profile))
    (echoedState : String) : CompleteOutcome :=
  match exchange with
  | .error e => { establishedSession := none, response := redirectOnErrorModel e echoedState }
  | .ok (ts, profile) =>
      match (verifyCallback options resolver ts profile).result with
      | .success user =>
          { establishedSession := some user
            response := redirectOnSuccessModel echoedState }
      | .failure e =>
          { establishedSession := none
            response := redirectOnErrorModel e echoedState }

/-- Outcome of a logout-related handler: the session state after the
handler ran (`destroyMagdaSession` leaves no session) and the response. -/
structure HandlerOutcome where
  sessionAfter : Option SessionUser
  response : Response
deriving DecidableEq

/-- Endpoint `GET /logout` (Logout-initiate): the token set is read from the session
*before* `destroyMagdaSession` destroys it; with no token set the browser is
sent straight to the destination (resolved against the external base URL);
otherwise it is sent to the provider's end-session URL with the captured
token set as `id_token_hint` and a post-logout callback embedding the
destination — computed by `determineRedirectUrl` *without* an external base
URL — as a nested `redirect` parameter. -/
def logoutHandler (options : AuthPluginRouterOptions) (req : Request) : HandlerOutcome :=
  let tokenSet := sessionTokenSet req.user
  match tokenSet with
  | none =>
      { sessionAfter := none
        response := .redirect (determineRedirectUrl req.redirect
          options.authPluginRedirectUrl (some options.externalUrl)) }
  | some ts =>
      let redirectUrl := determineRedirectUrl req.redirect
        options.authPluginRedirectUrl none
      { sessionAfter := none
        response := .providerLogoutRedirect ts
          (getAbsoluteUrl ("/auth/plugin/" ++ options.pluginKey ++ "/logout/return")
            (some options.externalUrl) [("redirect", redirectUrl)]) }

/-- Endpoint `GET /logout/return` (Logout-return): destroy any remaining session, then
redirect to the destination computed by `determineRedirectUrl` with the
external base URL. -/
def logoutReturnHandler (options : AuthPluginRouterOptions) (req : Request) : HandlerOutcome :=
  { sessionAfter := none
    response := .redirect (determineRedirectUrl req.redirect
      options.authPluginRedirectUrl (some options.externalUrl)) }

/-! Router construction: `createAuthPluginRouter`. -/

/-- Result of router construction: a configuration error thrown before any
endpoint is registered, or a router with its registered endpoints. -/
inductive RouterConstruction where
  | configError (message : String)
  | router (endpoints : List String)
deriving DecidableEq

/-- The configuration validation and endpoint registration of
`createAuthPluginRouter`: empty client id, client secret or issuer throw
before the client is created or any route is registered. -/
def createAuthPluginRouter (options : AuthPluginRouterOptions) : RouterConstruction :=
  if options.clientId = "" then
    .configError "Required client id can't be empty!"
  else if options.clientSecret = "" then
    .configError "Required client secret can't be empty!"
  else if options.issuer = "" then
    .configError "Required issuer url (options.issuer) can't be empty and must be a string!"
  else
    .router ["/", "/return", "/logout", "/logout/return"]

/-! Helper lemmas about the string primitives. -/

theorem strExt (s t : String) (h : s.data = t.data) : s = t := congrArg String.mk h

theorem strAppend_data (a b : String) : (a ++ b).data = a.data ++ b.data := rfl

theorem strAppend_assoc (a b c : String) : a ++ b ++ c = a ++ (b ++ c) :=
  strExt _ _ (List.append_assoc a.data b.data c.data)

theorem strAppend_empty (a : String) : a ++ "" = a :=
  strExt _ _ (List.append_nil a.data)

theorem lastIsSlash_concat_slash (b : String) : lastIsSlash (b ++ "/") = true := by
  have h : (b ++ "/").data = b.data ++ ['/'] := rfl
  simp [lastIsSlash, h, List.getLast?_concat]

theorem stripTrailingSlash_concat_slash (b : String) : stripTrailingSlash (b ++ "/") = b := by
  unfold stripTrailingSlash
  rw [lastIsSlash_concat_slash]
  simp only [if_pos]
  apply strExt
  show ((b ++ "/").data).dropLast = b.data
  have h : (b ++ "/").data = b.data ++ ['/'] := rfl
  rw [h, List.dropLast_concat]

theorem stripTrailingSlash_no_slash (s : String) (h : lastIsSlash s = false) :
    stripTrailingSlash s = s := by
  unfold stripTrailingSlash
  rw [h]
  simp

theorem appendQueries_nil (u : String) : appendQueries u [] = u := rfl

theorem isAbsoluteUrl_take (e : String) (h : isAbsoluteUrl e = true) :
    e.data.take 4 = "http".data := by simpa [isAbsoluteUrl] using h

theorem isAbsoluteUrl_length (e : String) (h : isAbsoluteUrl e = true) :
    4 ≤ e.data.length := by
  have hl : (e.data.take 4).length = 4 := by rw [isAbsoluteUrl_take e h]; rfl
  rw [List.length_take] at hl
  omega

theorem isAbsoluteUrl_stripTrailingSlash (e : String) (h : isAbsoluteUrl e = true) :
    isAbsoluteUrl (stripTrailingSlash e) = true := by
  by_cases hs : lastIsSlash e = true
  · have h' : e.data.take 4 = "http".data := isAbsoluteUrl_take e h
    have hlen : 4 ≤ e.data.length := isAbsoluteUrl_length e h
    have hne : e.data.length ≠ 4 := by
      intro h4
      have ht : e.data.take 4 = e.data := List.take_of_length_le (by omega)
      have he : e.data = "http".data := by rw [← ht, h']
      simp [lastIsSlash, he] at hs
    have h5 : 5 ≤ e.data.length := by omega
    unfold stripTrailingSlash
    rw [hs, if_pos rfl]
    simp only [isAbsoluteUrl, decide_eq_true_eq]
    show (e.data.dropLast).take 4 = "http".data
    rw [List.dropLast_eq_take, List.take_take]
    have hmin : min 4 (e.data.length - 1) = 4 := by omega
    rw [hmin]
    exact h'
  · have hs' : lastIsSlash e = false := by simpa using hs
    rw [stripTrailingSlash_no_slash e hs']
    exact h

theorem isAbsoluteUrl_append_left (a b : String) (h : isAbsoluteUrl a = true) :
    isAbsoluteUrl (a ++ b) = true := by
  have h' : a.data.take 4 = "http".data := isAbsoluteUrl_take a h
  have hlen : 4 ≤ a.data.length := isAbsoluteUrl_length a h
  simp only [isAbsoluteUrl, decide_eq_true_eq]
  show (a.data ++ b.data).take 4 = "http".data
  rw [List.take_append_eq_append_take]
  have h0 : 4 - a.data.length = 0 := by omega
  rw [h0, List.take_zero, List.append_nil, h']

theorem isAbsoluteUrl_joinUrl (b u : String) (h : isAbsoluteUrl b = true) :
    isAbsoluteUrl (joinUrl b u) = true :=
  isAbsoluteUrl_append_left _ _ (isAbsoluteUrl_stripTrailingSlash b h)

theorem getAbsoluteUrl_some (u e : String) :
    getAbsoluteUrl u (some e) [] = if isAbsoluteUrl u then u else joinUrl e u := rfl

theorem determineRedirectUrl_some (s d e : String) :
    determineRedirectUrl (some s) d (some e)
      = if s = "" then getAbsoluteUrl d (some e) [] else getAbsoluteUrl s (some e) [] := rfl

theorem determineRedirectUrl_none (d e : String) :
    determineRedirectUrl none d (some e) = getAbsoluteUrl d (some e) [] := rfl

theorem isAbsoluteUrl_getAbsoluteUrl (u e : String) (h : isAbsoluteUrl e = true) :
    isAbsoluteUrl (getAbsoluteUrl u (some e) []) = true := by
  rw [getAbsoluteUrl_some]
  by_cases hu : isAbsoluteUrl u = true
  · rw [if_pos hu]
    exact hu
  · rw [if_neg hu]
    exact isAbsoluteUrl_joinUrl e u h

theorem isAbsoluteUrl_determineRedirectUrl (r : Option String) (d e : String)
    (h : isAbsoluteUrl e = true) :
    isAbsoluteUrl (determineRedirectUrl r d (some e)) = true := by
  cases r with
  | none => rw [determineRedirectUrl_none]; exact isAbsoluteUrl_getAbsoluteUrl d e h
  | some s =>
      rw [determineRedirectUrl_some]
      by_cases hs : s = ""
      · rw [if_pos hs]
        exact isAbsoluteUrl_getAbsoluteUrl d e h
      · rw [if_neg hs]
        exact isAbsoluteUrl_getAbsoluteUrl s e h

/-! Concrete fixtures used by witnesses and counterexamples. -/

/-- A representative valid configuration (plugin key `okta`, explicit
logout enabled). -/
def exOptions : AuthPluginRouterOptions :=
  { issuer := "https://dev-123.okta.com/oauth2/default"
    clientId := "client-id-1"
    clientSecret := "client-secret-1"
    externalUrl := "https://example.org"
    authPluginRedirectUrl := "/sign-in-redirect"
    pluginKey := "okta"
    explicitLogout := true
    timeout := none
    maxClockSkew := none
    scope := none }

/-- The same configuration with an empty client id. -/
def exOptionsNoClientId : AuthPluginRouterOptions :=
  { exOptions with clientId := "" }

/-- The same configuration with `explicitLogout` disabled. -/
def exOptionsNoLogout : AuthPluginRouterOptions :=
  { exOptions with explicitLogout := false }

/-- A concrete provider token set. -/
def exTokenSet : TokenSet := { idToken := "id-token-1" }

/-- A profile carrying an email address. -/
def exProfile : Profile :=
  { sub := some "sub-1", email := some "jane@example.org"
    displayName := some "Jane", familyName := some "Doe", givenName := some "Jane" }

/-- A profile with no email claim. -/
def exProfileNoEmail : Profile :=
  { sub := some "sub-1", email := none
    displayName := some "Jane", familyName := some "Doe", givenName := some "Jane" }

/-- A resolver (the `createOrGetUserToken` collaborator) that always
succeeds. -/
def exResolver : Profile → Except String UserToken :=
  fun _ => .ok { id := "user-1" }

/-- A logged-in session user holding a token set. -/
def exSessionUser : SessionUser :=
  { userToken := some { id := "user-1" }
    authPlugin := some { key := "okta", tokenSet := some exTokenSet, logoutUrl := none } }

/-- A request with a relative redirect parameter and no session. -/
def exReqLoggedOut : Request :=
  { redirect := some "/dashboard", state := none, user := none }

/-- A request with a relative redirect parameter and a logged-in session. -/
def exReqLoggedIn : Request :=
  { redirect := some "/dashboard", state := none, user := some exSessionUser }

/-! Claim theorems. -/

/-- C7: discovery fetches exactly `<issuer>/.well-known/openid-configuration`;
whether or not the issuer URL ends with a trailing slash, the constructed
discovery URL has exactly one slash between the issuer and
`.well-known/openid-configuration`. -/
theorem okta_c7_discovery_single_slash (issuer : String) :
    (lastIsSlash issuer = false →
      discoveryUrl issuer = issuer ++ "/.well-known/openid-configuration") ∧
    (∀ base : String, issuer = base ++ "/" →
      discoveryUrl issuer = base ++ "/.well-known/openid-configuration") := by
  constructor
  · intro h
    unfold discoveryUrl
    rw [h, if_neg (by simp), strAppend_assoc,
      show "/" ++ ".well-known/openid-configuration"
        = ("/.well-known/openid-configuration" : String) from by decide]
  · intro base hb
    rw [hb]
    unfold discoveryUrl
    rw [lastIsSlash_concat_slash, if_pos rfl, strAppend_empty, strAppend_assoc,
      show "/" ++ ".well-known/openid-configuration"
        = ("/.well-known/openid-configuration" : String) from by decide]

/-- Witness for C7: both trailing-slash variants of a concrete issuer yield
the same single-slash discovery URL. -/
theorem okta_c7_discovery_single_slash_witness :
    discoveryUrl "https://dev-123.okta.com/oauth2/default"
      = "https://dev-123.okta.com/oauth2/default/.well-known/openid-configuration" ∧
    discoveryUrl "https://dev-123.okta.com/oauth2/default/"
      = "https://dev-123.okta.com/oauth2/default/.well-known/openid-configuration" :=
  ⟨(okta_c7_discovery_single_slash "https://dev-123.okta.com/oauth2/default").1 (by decide),
   (okta_c7_discovery_single_slash "https://dev-123.okta.com/oauth2/default/").2
     "https://dev-123.okta.com/oauth2/default" (by decide)⟩

/-- C8: an empty client id, client secret or issuer makes router construction
fail with a configuration error before any endpoint is registered; with all
three present it registers the four endpoints without a configuration
error. -/
theorem okta_c8_config_validation (options : AuthPluginRouterOptions) :
    ((options.clientId = "" ∨ options.clientSecret = "" ∨ options.issuer = "") →
      ∃ msg, createAuthPluginRouter options = .configError msg) ∧
    (options.clientId ≠ "" → options.clientSecret ≠ "" → options.issuer ≠ "" →
      createAuthPluginRouter options
        = .router ["/", "/return", "/logout", "/logout/return"]) := by
  constructor
  · intro h
    unfold createAuthPluginRouter
    by_cases h1 : options.clientId = ""
    · rw [if_pos h1]
      exact ⟨_, rfl⟩
    · rw [if_neg h1]
      by_cases h2 : options.clientSecret = ""
      · rw [if_pos h2]
        exact ⟨_, rfl⟩
      · rw [if_neg h2]
        have h3 : options.issuer = "" := by tauto
        rw [if_pos h3]
        exact ⟨_, rfl⟩
  · intro h1 h2 h3
    unfold createAuthPluginRouter
    rw [if_neg h1, if_neg h2, if_neg h3]

/-- Witness for C8: the fixture with an empty client id yields a
configuration error; the valid fixture registers the four endpoints. -/
theorem okta_c8_config_validation_witness :
    (∃ msg, createAuthPluginRouter exOptionsNoClientId = .configError msg) ∧
    createAuthPluginRouter exOptions
      = .router ["/", "/return", "/logout", "/logout/return"] :=
  ⟨(okta_c8_config_validation exOptionsNoClientId).1 (Or.inl (by decide)),
   (okta_c8_config_validation exOptions).2 (by decide) (by decide) (by decide)⟩

/-- C10: the two optional numeric configuration values are defaulted
asymmetrically: a configured `maxClockSkew` of `0` is honored (only absence
yields the default `120`), while a configured `timeout` of `0` is replaced by
the default `10000` because the fallback tests falsiness rather than
absence. -/
theorem okta_c10_numeric_defaults :
    clientClockTolerance (some 0) = 0 ∧
    clientClockTolerance none = OKTA_DEFAULT_MAX_CLOCK_SKEW ∧
    (∀ v : Nat, clientClockTolerance (some v) = v) ∧
    issuerHttpTimeout (some 0) = OKTA_DEFAULT_TIMEOUT ∧
    issuerHttpTimeout none = OKTA_DEFAULT_TIMEOUT ∧
    (∀ t : Nat, t ≠ 0 → issuerHttpTimeout (some t) = t) := by
  refine ⟨rfl, rfl, fun v => rfl, rfl, rfl, fun t ht => ?_⟩
  show (if t = 0 then OKTA_DEFAULT_TIMEOUT else t) = t
  rw [if_neg ht]

/-- Witness for C10: a nonzero configured timeout is honored, and a zero
clock skew is honored while a zero timeout is not. -/
theorem okta_c10_numeric_defaults_witness :
    issuerHttpTimeout (some 5000) = 5000 ∧
    clientClockTolerance (some 0) = 0 ∧
    issuerHttpTimeout (some 0) = 10000 :=
  ⟨okta_c10_numeric_defaults.2.2.2.2.2 5000 (by decide),
   okta_c10_numeric_defaults.1,
   okta_c10_numeric_defaults.2.2.2.1⟩

/-- C2: when the exchanged claims lack a non-empty email, the verify callback
yields an error instead of a user record, the user/token resolver is never
invoked, and the Complete transition establishes no session and redirects to
the error destination. -/
theorem okta_c2_missing_email (options : AuthPluginRouterOptions)
    (resolver : Profile → Except String UserToken) (ts : TokenSet) (profile : Profile)
    (st : String) (h : isFalsyEmail profile.email = true) :
    (verifyCallback options resolver ts profile).resolverInvoked = false ∧
    (verifyCallback options resolver ts profile).result
      = .failure "Cannot locate email address from the user profile." ∧
    (completeHandler options resolver (.ok (ts, profile)) st).establishedSession = none ∧
    (completeHandler options resolver (.ok (ts, profile)) st).response
      = redirectOnErrorModel "Cannot locate email address from the user profile." st := by
  have hv : verifyCallback options resolver ts profile
      = { result := .failure "Cannot locate email address from the user profile."
          resolverInvoked := false } := by
    unfold verifyCallback
    rw [h, if_pos rfl]
  refine ⟨by rw [hv], by rw [hv], ?_, ?_⟩
  · simp [completeHandler, hv]
  · simp [completeHandler, hv]

/-- Witness for C2 at a concrete profile without an email claim. -/
theorem okta_c2_missing_email_witness :
    (verifyCallback exOptions exResolver exTokenSet exProfileNoEmail).resolverInvoked = false ∧
    (verifyCallback exOptions exResolver exTokenSet exProfileNoEmail).result
      = .failure "Cannot locate email address from the user profile." ∧
    (completeHandler exOptions exResolver (.ok (exTokenSet, exProfileNoEmail))
        "https://example.org/dashboard").establishedSession = none ∧
    (completeHandler exOptions exResolver (.ok (exTokenSet, exProfileNoEmail))
        "https://example.org/dashboard").response
      = redirectOnErrorModel "Cannot locate email address from the user profile."
          "https://example.org/dashboard" :=
  okta_c2_missing_email exOptions exResolver exTokenSet exProfileNoEmail
    "https://example.org/dashboard" (by decide)

/-- C5: every successfully established session user carries an `authPlugin`
marker whose logout URL is present exactly when `explicitLogout` is
configured: always `/auth/plugin/<key>/logout` when true, never when
false. -/
theorem okta_c5_logout_url_iff_explicit (options : AuthPluginRouterOptions)
    (resolver : Profile → Except String UserToken) (ts : TokenSet) (profile : Profile)
    (user : SessionUser)
    (h : (verifyCallback options resolver ts profile).result = .success user) :
    ∃ apd : AuthPluginData, user.authPlugin = some apd ∧
      apd.logoutUrl.isSome = options.explicitLogout ∧
      (options.explicitLogout = true →
        apd.logoutUrl = some ("/auth/plugin/" ++ options.pluginKey ++ "/logout")) ∧
      (options.explicitLogout = false → apd.logoutUrl = none) := by
  unfold verifyCallback at h
  by_cases he : isFalsyEmail profile.email = true
  · rw [he, if_pos rfl] at h
    exact absurd h (by simp)
  · have he' : isFalsyEmail profile.email = false := by simpa using he
    rw [he', if_neg (by simp)] at h
    cases hr : resolver profile with
    | ok ut =>
        rw [hr] at h
        simp only [VerifyResult.success.injEq] at h
        subst h
        refine ⟨_, rfl, ?_, ?_, ?_⟩
        · cases hb : options.explicitLogout <;> simp [hb]
        · intro hb
          simp [hb]
        · intro hb
          simp [hb]
    | error e =>
        rw [hr] at h
        exact absurd h (by simp)

/-- Witness for C5: with `explicitLogout` enabled the established marker
carries the plugin-scoped logout URL. -/
theorem okta_c5_logout_url_iff_explicit_witness :
    ∃ apd : AuthPluginData,
      ({ userToken := some { id := "user-1" }
         authPlugin := some { key := "okta", tokenSet := some exTokenSet
                              logoutUrl := some "/auth/plugin/okta/logout" } }
        : SessionUser).authPlugin = some apd ∧
      apd.logoutUrl.isSome = exOptions.explicitLogout ∧
      (exOptions.explicitLogout = true →
        apd.logoutUrl = some ("/auth/plugin/" ++ exOptions.pluginKey ++ "/logout")) ∧
      (exOptions.explicitLogout = false → apd.logoutUrl = none) :=
  okta_c5_logout_url_iff_explicit exOptions exResolver exTokenSet exProfile
    { userToken := some { id := "user-1" }
      authPlugin := some { key := "okta", tokenSet := some exTokenSet
                           logoutUrl := some "/auth/plugin/okta/logout" } }
    (by decide)

/-- C3: the destination embedded as `state` at Initiate equals the
destination used for the final redirect at Complete, provided the provider
echoes the state back verbatim and the verify callback succeeds. -/
theorem okta_c3_state_round_trip (options : AuthPluginRouterOptions)
    (resolver : Profile → Except String UserToken) (req : Request)
    (ts : TokenSet) (profile : Profile) (user : SessionUser)
    (h : (verifyCallback options resolver ts profile).result = .success user) :
    initiateHandler options req
      = .providerAuthRedirect (resolvedScope options.scope) (initiateState options req) ∧
    (completeHandler options resolver (.ok (ts, profile))
        (initiateState options req)).response
      = .redirect (initiateState options req) := by
  refine ⟨rfl, ?_⟩
  simp [completeHandler, h, redirectOnSuccessModel]

/-- Witness for C3 at a concrete request and profile. -/
theorem okta_c3_state_round_trip_witness :
    (completeHandler exOptions exResolver (.ok (exTokenSet, exProfile))
        (initiateState exOptions exReqLoggedOut)).response
      = .redirect (initiateState exOptions exReqLoggedOut) :=
  (okta_c3_state_round_trip exOptions exResolver exReqLoggedOut exTokenSet exProfile
    { userToken := some { id := "user-1" }
      authPlugin := some { key := "okta", tokenSet := some exTokenSet
                           logoutUrl := some "/auth/plugin/okta/logout" } }
    (by decide)).2

/-- C4: Logout-initiate always leaves no session, a call with no session (or
a session without a provider token set) is a direct redirect to the resolved
destination rather than an error, and a second call right after the first
produces the same direct-redirect outcome. -/
theorem okta_c4_logout_idempotent (options : AuthPluginRouterOptions) (req : Request)
    (h : sessionTokenSet req.user = none) :
    logoutHandler options req
      = { sessionAfter := none
          response := .redirect (determineRedirectUrl req.redirect
            options.authPluginRedirectUrl (some options.externalUrl)) } ∧
    logoutHandler options { req with user := (logoutHandler options req).sessionAfter }
      = logoutHandler options req := by
  have h1 : logoutHandler options req
      = { sessionAfter := none
          response := .redirect (determineRedirectUrl req.redirect
            options.authPluginRedirectUrl (some options.externalUrl)) } := by
    simp [logoutHandler, h]
  refine ⟨h1, ?_⟩
  rw [h1]
  simp [logoutHandler, sessionTokenSet]

/-- Witness for C4 at a concrete logged-out request. -/
theorem okta_c4_logout_idempotent_witness :
    logoutHandler exOptions exReqLoggedOut
      = { sessionAfter := none
          response := .redirect (determineRedirectUrl exReqLoggedOut.redirect
            exOptions.authPluginRedirectUrl (some exOptions.externalUrl)) } ∧
    logoutHandler exOptions
        { exReqLoggedOut with user := (logoutHandler exOptions exReqLoggedOut).sessionAfter }
      = logoutHandler exOptions exReqLoggedOut :=
  okta_c4_logout_idempotent exOptions exReqLoggedOut (by decide)

/-- C9: the provider token set is read from the session before the session
is destroyed, so when the session held one, the end-session redirect still
carries it as the id-token hint even though the local session is gone. -/
theorem okta_c9_token_read_before_destroy (options : AuthPluginRouterOptions)
    (req : Request) (ts : TokenSet) (h : sessionTokenSet req.user = some ts) :
    (logoutHandler options req).sessionAfter = none ∧
    (logoutHandler options req).response
      = .providerLogoutRedirect ts
          (getAbsoluteUrl ("/auth/plugin/" ++ options.pluginKey ++ "/logout/return")
            (some options.externalUrl)
            [("redirect", determineRedirectUrl req.redirect
              options.authPluginRedirectUrl none)]) := by
  constructor <;> simp [logoutHandler, h]

/-- Witness for C9 at a concrete logged-in request. -/
theorem okta_c9_token_read_before_destroy_witness :
    (logoutHandler exOptions exReqLoggedIn).sessionAfter = none ∧
    (logoutHandler exOptions exReqLoggedIn).response
      = .providerLogoutRedirect exTokenSet
          (getAbsoluteUrl ("/auth/plugin/" ++ exOptions.pluginKey ++ "/logout/return")
            (some exOptions.externalUrl)
            [("redirect", determineRedirectUrl exReqLoggedIn.redirect
              exOptions.authPluginRedirectUrl none)]) :=
  okta_c9_token_read_before_destroy exOptions exReqLoggedIn exTokenSet (by decide)

theorem lastIsSlash_append (a s : String) (h : s.data ≠ []) :
    lastIsSlash (a ++ s) = lastIsSlash s := by
  simp only [lastIsSlash]
  rw [strAppend_data, List.getLast?_append_of_ne_nil a.data h]

/-- A configuration whose plugin key differs from the literal `okta`. -/
def exOptionsMyKey : AuthPluginRouterOptions :=
  { exOptions with pluginKey := "myokta" }

/-- Counterexample to C6: with the plugin key configured as `myokta`, the
client's redirect URI still carries the literal `okta` path segment, not the
configured plugin key. -/
theorem okta_c6_counterexample :
    (createOpenIdClient exOptionsMyKey).redirect_uris
      = ["https://example.org/auth/login/plugin/okta/return"] ∧
    (createOpenIdClient exOptionsMyKey).redirect_uris
      ≠ ["https://example.org/auth/login/plugin/"
          ++ exOptionsMyKey.pluginKey ++ "/return"] := by
  constructor
  · decide
  · decide

/-- C6 (amended): the client presented to the provider is bound to the single
fixed redirect URI `<externalUrl>/auth/login/plugin/okta/return` — with the
literal path segment `okta`, independent of the configured plugin key —
chosen once at client construction from the options alone, so it cannot vary
per request. -/
theorem okta_c6_amended (options : AuthPluginRouterOptions) :
    (createOpenIdClient options).redirect_uris
      = [stripTrailingSlash options.externalUrl
          ++ "/auth/login/plugin/okta/return"] := by
  show clientRedirectUris options.externalUrl = _
  unfold clientRedirectUris loginBaseUrl
  rw [getAbsoluteUrl_some, getAbsoluteUrl_some,
    if_neg (by decide : ¬ isAbsoluteUrl "/auth/login/plugin" = true),
    if_neg (by decide : ¬ isAbsoluteUrl "/okta/return" = true)]
  unfold joinUrl
  rw [if_pos (by decide : startsWithSlash "/auth/login/plugin" = true),
    if_pos (by decide : startsWithSlash "/okta/return" = true)]
  have hns : lastIsSlash (stripTrailingSlash options.externalUrl
      ++ "/auth/login/plugin") = false := by
    rw [lastIsSlash_append _ _ (by decide)]
    decide
  rw [stripTrailingSlash_no_slash _ hns, strAppend_assoc,
    show "/auth/login/plugin" ++ "/okta/return"
      = ("/auth/login/plugin/okta/return" : String) from by decide]

/-- Counterexample to C1: on Logout-initiate with an active token set and the
relative query parameter `redirect=/dashboard`, the destination embedded in
the post-logout callback is the unresolved `/dashboard`, not its absolute
resolution `https://example.org/dashboard` against the external base URL, so
the redirect-destination rule is not the same on all four entry points. -/
theorem okta_c1_counterexample :
    (logoutHandler exOptions exReqLoggedIn).response
      = .providerLogoutRedirect exTokenSet
          "https://example.org/auth/plugin/okta/logout/return?redirect=/dashboard" ∧
    determineRedirectUrl exReqLoggedIn.redirect exOptions.authPluginRedirectUrl
        (some exOptions.externalUrl) = "https://example.org/dashboard" ∧
    (logoutHandler exOptions exReqLoggedIn).response
      ≠ .providerLogoutRedirect exTokenSet
          "https://example.org/auth/plugin/okta/logout/return?redirect=https://example.org/dashboard" := by
  refine ⟨by decide, by decide, by decide⟩

/-- C1 (amended): Initiate, Logout-return and the token-less branch of
Logout-initiate all compute the browser-redirect destination by the one rule
`determineRedirectUrl` — non-empty `redirect` query parameter over configured
default, resolved to an absolute URL against the external base URL (the
resolution yields an absolute URL whenever the external base URL is one).
The provider-notify branch of Logout-initiate applies the same
parameter-over-default rule but without the external base URL, embedding the
possibly still relative value in the post-logout callback; Complete redirects
to the echoed state rather than re-reading the `redirect` parameter. -/
theorem okta_c1_amended (options : AuthPluginRouterOptions) (req : Request) :
    initiateHandler options req
      = .providerAuthRedirect (resolvedScope options.scope)
          (determineRedirectUrl req.redirect options.authPluginRedirectUrl
            (some options.externalUrl)) ∧
    (sessionTokenSet req.user = none →
      logoutHandler options req
        = { sessionAfter := none
            response := .redirect (determineRedirectUrl req.redirect
              options.authPluginRedirectUrl (some options.externalUrl)) }) ∧
    logoutReturnHandler options req
      = { sessionAfter := none
          response := .redirect (determineRedirectUrl req.redirect
            options.authPluginRedirectUrl (some options.externalUrl)) } ∧
    (∀ ts : TokenSet, sessionTokenSet req.user = some ts →
      logoutHandler options req
        = { sessionAfter := none
            response := .providerLogoutRedirect ts
              (getAbsoluteUrl ("/auth/plugin/" ++ options.pluginKey ++ "/logout/return")
                (some options.externalUrl)
                [("redirect", determineRedirectUrl req.redirect
                  options.authPluginRedirectUrl none)]) }) ∧
    (isAbsoluteUrl options.externalUrl = true →
      isAbsoluteUrl (determineRedirectUrl req.redirect options.authPluginRedirectUrl
        (some options.externalUrl)) = true) := by
  refine ⟨rfl, fun h => by simp [logoutHandler, h], rfl,
    fun ts h => by simp [logoutHandler, h],
    fun h => isAbsoluteUrl_determineRedirectUrl req.redirect
      options.authPluginRedirectUrl options.externalUrl h⟩

/-- Witness for the amended C1 at a concrete logged-out request: the direct
logout redirect uses the absolutely resolved destination, and resolution
against the absolute external base URL yields an absolute URL. -/
theorem okta_c1_amended_witness :
    logoutHandler exOptions exReqLoggedOut
      = { sessionAfter := none
          response := .redirect (determineRedirectUrl exReqLoggedOut.redirect
            exOptions.authPluginRedirectUrl (some exOptions.externalUrl)) } ∧
    isAbsoluteUrl (determineRedirectUrl exReqLoggedOut.redirect
      exOptions.authPluginRedirectUrl (some exOptions.externalUrl)) = true :=
  ⟨(okta_c1_amended exOptions exReqLoggedOut).2.1 (by decide),
   (okta_c1_amended exOptions exReqLoggedOut).2.2.2.2 (by decide)⟩
